import Mathlib

/-!
Shallow embedding of the Notes CRUD service (FastAPI + SQLAlchemy + PostgreSQL).

The embedding models:
* the persisted rows of the two tables declared in app/models.py
  (classes User and Note, with the PKMixin / TimestampMixin columns);
* pydantic request validation for NoteIn and NoteUpdate (app/main.py),
  including the distinction between a JSON field that is absent, explicitly
  null, or carries a value, and the mode="before" whitespace stripping;
* the endpoint handlers of app/main.py: list_notes, get_note, create_note,
  update_note, delete_note, together with the store-level behaviour they
  rely on (PostgreSQL ILIKE pattern matching with the default backslash
  escape character, ORDER BY created_at DESC NULLS LAST, primary-key
  lookup, foreign-key enforcement, and the declared ON DELETE CASCADE);
* timestamps as abstract Nat clock values: created_at / updated_at are
  Option Nat (the columns are nullable), and mutating operations receive
  the current time as an explicit argument.  SQLAlchemy compares every
  assigned attribute against its previously saved value at flush time
  and emits an UPDATE statement (and hence fires onupdate=func.now())
  only when some assigned attribute has a net change; assignments that
  restate the stored value flush nothing.

Python str.strip() is modelled by pyStrip (drop whitespace from both
ends) and SQL lower() by Char.toLower; both agree with the Python and
PostgreSQL behaviour on ASCII, which is all the proofs rely on.
-/

deriving instance DecidableEq for Except

namespace NotesApp

/-- Python str.strip(): remove leading and trailing whitespace. -/
def pyStrip (s : String) : String :=
  ⟨((s.data.dropWhile Char.isWhitespace).reverse.dropWhile Char.isWhitespace).reverse⟩

/-- A persisted row of the notes table (class Note in app/models.py).
All data columns are nullable in the schema, so they are Options;
id is the integer primary key. -/
structure StoredNote where
  id : Int
  title : Option String
  body : Option String
  user_id : Option Int
  created_at : Option Nat
  updated_at : Option Nat
deriving DecidableEq, Repr

/-- A persisted row of the users table (class User in app/models.py). -/
structure StoredUser where
  id : Int
  email : Option String
  hashed_password : Option String
  created_at : Option Nat
deriving DecidableEq, Repr

/-- The relational store: the two tables plus the primary-key sequence
feeding new note ids. -/
structure DB where
  users : List StoredUser
  notes : List StoredNote
  note_seq : Int
deriving DecidableEq, Repr

/-- How a request can fail.
validationError is FastAPI's RequestValidationError or an explicit
HTTPException(422); notFound is HTTPException(404).  integrityError is
sqlalchemy.exc.IntegrityError raised by the database driver at commit
time; app/main.py installs no handler for it, so it escapes the endpoint
and Starlette's server-error path turns it into a bare 500 response. -/
inductive ApiError where
  | validationError
  | notFound
  | integrityError
deriving DecidableEq, Repr

/-- HTTP status code the client observes for each failure. -/
def ApiError.status : ApiError → Nat
  | .validationError => 422
  | .notFound => 404
  | .integrityError => 500

/-- True when the failure is a deliberate structured JSON error response
(raised via HTTPException or the validation handler); false when it is an
exception escaping the handler unhandled. -/
def ApiError.isStructured : ApiError → Bool
  | .validationError => true
  | .notFound => true
  | .integrityError => false

/-- One field of a JSON object: missing from the object, present with
value null, or present with a value. -/
inductive JsonField (α : Type) where
  | absent
  | null
  | val (a : α)
deriving DecidableEq, Repr

/-- Raw JSON body of a PUT /notes/\x7bid\x7d request, before pydantic
validation. -/
structure RawNoteUpdate where
  title : JsonField String
  body : JsonField String
  user_id : JsonField Int
deriving DecidableEq, Repr

/-- Raw JSON body of a POST /notes request, before pydantic validation. -/
structure RawNoteIn where
  title : JsonField String
  body : JsonField String
  user_id : JsonField Int
deriving DecidableEq, Repr

/-- The parsed NoteUpdate pydantic model (app/main.py lines 46-54): every
field is Optional with default None, so after validation only "None or a
value" remains. -/
structure NoteUpdate where
  title : Option String
  body : Option String
  user_id : Option Int
deriving DecidableEq, Repr

/-- The parsed NoteIn pydantic model (app/main.py lines 35-43). -/
structure NoteIn where
  title : String
  body : Option String
  user_id : Option Int
deriving DecidableEq, Repr

/-- Validation of NoteUpdate.title: Optional[str] = Field(None,
min_length=1, max_length=200) with a mode="before" validator stripping
whitespace.  Absent and null both give the default None; a string value
is stripped and then length-checked. -/
def parseUpdTitle : JsonField String → Except ApiError (Option String)
  | .absent => .ok none
  | .null => .ok none
  | .val v =>
    let t := pyStrip v
    if 1 ≤ t.length ∧ t.length ≤ 200 then .ok (some t) else .error .validationError

/-- Validation of NoteUpdate.body: Optional[str] = Field(None,
max_length=2000), stripped before validation. -/
def parseUpdBody : JsonField String → Except ApiError (Option String)
  | .absent => .ok none
  | .null => .ok none
  | .val v =>
    let t := pyStrip v
    if t.length ≤ 2000 then .ok (some t) else .error .validationError

/-- Validation of NoteUpdate.user_id / NoteIn.user_id: Optional[int] =
None, no further constraints. -/
def parseUserId : JsonField Int → Option Int
  | .absent => none
  | .null => none
  | .val v => some v

/-- Pydantic validation of the NoteUpdate model.  Note that both an
absent field and an explicit null end up as None in the parsed model. -/
def parseNoteUpdate (r : RawNoteUpdate) : Except ApiError NoteUpdate := do
  let t ← parseUpdTitle r.title
  let b ← parseUpdBody r.body
  .ok { title := t, body := b, user_id := parseUserId r.user_id }

/-- Validation of NoteIn.title: str = Field(..., min_length=1,
max_length=200), stripped before validation; the field is required, so
absent and null are both rejected. -/
def parseInTitle : JsonField String → Except ApiError String
  | .absent => .error .validationError
  | .null => .error .validationError
  | .val v =>
    let t := pyStrip v
    if 1 ≤ t.length ∧ t.length ≤ 200 then .ok t else .error .validationError

/-- Pydantic validation of the NoteIn model. -/
def parseNoteIn (r : RawNoteIn) : Except ApiError NoteIn := do
  let t ← parseInTitle r.title
  let b ← parseUpdBody r.body
  .ok { title := t, body := b, user_id := parseUserId r.user_id }

/-- SQL LIKE pattern matching over characters, as PostgreSQL implements
it: percent matches any sequence of characters, underscore matches any
single character, and the default escape character backslash makes the
following pattern character literal.  A pattern ending in a lone escape
character matches nothing (PostgreSQL raises an error for it). -/
def likeMatch : List Char → List Char → Bool
  | [], s => s.isEmpty
  | p :: ps, s =>
    if p = '\\' then
      match ps, s with
      | p2 :: ps2, c :: s2 => p2 == c && likeMatch ps2 s2
      | _, _ => false
    else if p = '%' then
      match s with
      | [] => likeMatch ps []
      | c :: s2 => likeMatch ps (c :: s2) || likeMatch (p :: ps) s2
    else
      match s with
      | [] => false
      | c :: s2 => (p = '_' || p == c) && likeMatch ps s2
termination_by p s => (p.length, s.length)

/-- Characters of a string, lowercased (SQL lower(), ASCII case map). -/
def lowerChars (s : String) : List Char := s.data.map Char.toLower

/-- PostgreSQL ILIKE: LIKE after lowercasing both operands. -/
def ilike (s : String) (pattern : String) : Bool :=
  likeMatch (lowerChars pattern) (lowerChars s)

/-- The search pattern list_notes builds from the query string:
like = f"%\x7bq.strip()\x7d%" (app/main.py line 218). -/
def likePattern (q : String) : String := "%" ++ pyStrip q ++ "%"

/-- SQL column ILIKE pattern: a NULL column never matches. -/
def optIlike (v : Option String) (pattern : String) : Bool :=
  match v with
  | none => false
  | some s => ilike s pattern

/-- The search filter of list_notes (app/main.py line 219):
or_(Note.title.ilike(like), Note.body.ilike(like)). -/
def noteMatchesQ (q : String) (n : StoredNote) : Bool :=
  optIlike n.title (likePattern q) || optIlike n.body (likePattern q)

/-- The combined WHERE clause of list_notes: the search filter is applied
only when q is truthy (present and non-empty), the owner filter only when
user_id is present (app/main.py lines 217-222). -/
def matchFilter (q : Option String) (user_id : Option Int) (n : StoredNote) : Bool :=
  (match q with
   | none => true
   | some s => if s = "" then true else noteMatchesQ s n) &&
  (match user_id with
   | none => true
   | some uid => n.user_id == some uid)

/-- Row comparison realising ORDER BY created_at DESC NULLS LAST
(app/main.py line 226): a row precedes another when its timestamp is
larger, and any non-NULL timestamp precedes NULL. -/
def noteLe (a b : StoredNote) : Bool :=
  match a.created_at, b.created_at with
  | some x, some y => y ≤ x
  | some _, none => true
  | none, some _ => false
  | none, none => true

/-- noteLe as a relation, for the sorting lemmas. -/
def noteOrd (a b : StoredNote) : Prop := noteLe a b = true

instance : DecidableRel noteOrd := fun a b => decEq (noteLe a b) true

instance : IsTotal StoredNote noteOrd := by
  constructor
  intro a b
  unfold noteOrd noteLe
  cases a.created_at <;> cases b.created_at <;> simp <;> try omega

instance : IsTrans StoredNote noteOrd := by
  constructor
  intro a b c
  unfold noteOrd noteLe
  cases a.created_at <;> cases b.created_at <;> cases c.created_at <;> simp <;> try omega

/-- The JSON body returned by GET /notes. -/
structure ListResult where
  items : List StoredNote
  total : Nat
  limit : Int
  offset : Int
deriving DecidableEq, Repr

/-- The Query(None, ge=1) constraint on the user_id parameter: it fails
only when the parameter is present and below 1. -/
def badUserParam (user_id : Option Int) : Bool :=
  match user_id with
  | some u => decide (u < 1)
  | none => false

/-- GET /notes (app/main.py lines 207-236).  Query-parameter constraints
(user_id ge=1, limit ge=1 le=100, offset ge=0) are enforced by FastAPI
before the handler runs.  The handler filters, counts the matching rows,
then sorts and applies the pagination window.  The ORDER BY is modelled
by a sort consistent with noteOrd; none of the stated properties depend
on how the store breaks ties between equal timestamps. -/
def list_notes (db : DB) (q : Option String) (user_id : Option Int)
    (limit : Int) (offset : Int) : Except ApiError ListResult :=
  if badUserParam user_id then .error .validationError
  else if limit < 1 ∨ 100 < limit then .error .validationError
  else if offset < 0 then .error .validationError
  else
    let filtered := db.notes.filter (matchFilter q user_id)
    let total := filtered.length
    let items := ((List.insertionSort noteOrd filtered).drop offset.toNat).take limit.toNat
    .ok { items := items, total := total, limit := limit, offset := offset }

/-- GET /notes/\x7bnote_id\x7d (app/main.py lines 239-244).  The path
parameter carries ge=1, so a non-positive id is rejected by FastAPI
validation before the store is consulted; db.get is a primary-key
lookup. -/
def get_note (db : DB) (note_id : Int) : Except ApiError StoredNote :=
  if note_id < 1 then .error .validationError
  else
    match db.notes.find? (fun n => n.id == note_id) with
    | none => .error .notFound
    | some n => .ok n

/-- The foreign-key constraint notes.user_id REFERENCES users.id, as
the store enforces it at commit: a non-NULL user_id must name an
existing user row. -/
def fkOk (db : DB) (u : Option Int) : Bool :=
  match u with
  | none => true
  | some uid => (db.users.find? (fun x => x.id == uid)).isSome

/-- The row a successful POST /notes inserts: a fresh sequence id and
server_default now() for both timestamps. -/
def freshNote (db : DB) (title : String) (body : Option String)
    (user_id : Option Int) (now : Nat) : StoredNote where
  id := db.note_seq
  title := some title
  body := body
  user_id := user_id
  created_at := some now
  updated_at := some now

/-- POST /notes (app/main.py lines 247-255).  After validation the
handler re-checks the title (dead code, the model already guarantees it),
builds the row and commits; the created_at and updated_at columns get
their server_default now().  If the supplied user_id references no user,
the foreign key makes the commit raise IntegrityError, which nothing in
app/main.py catches. -/
def create_note (db : DB) (raw : RawNoteIn) (now : Nat) :
    Except ApiError (StoredNote × DB) := do
  let note ← parseNoteIn raw
  if note.title = "" then .error .validationError
  else if fkOk db note.user_id then
    let n := freshNote db note.title note.body note.user_id now
    .ok (n, { db with notes := db.notes ++ [n], note_seq := db.note_seq + 1 })
  else .error .integrityError

/-- Whether flushing the three conditional assignments of update_note
produces a net change against the stored row.  At flush time SQLAlchemy
compares each assigned attribute with its previously saved value and
emits no SQL when nothing differs (History.from_scalar_attribute), so an
UPDATE statement happens exactly when some supplied field differs from
the stored column value. -/
def netChange (n : StoredNote) (data : NoteUpdate) : Bool :=
  (data.title.isSome && data.title != n.title) ||
  (data.body.isSome && data.body != n.body) ||
  (data.user_id.isSome && data.user_id != n.user_id)

/-- The row state after the three conditional assignments of update_note
(app/main.py lines 267-272) and the commit: each parsed field that is not
None overwrites the stored column, and updated_at is touched by
onupdate=func.now() exactly when the flush emits an UPDATE, that is when
netChange holds; an update with no net change flushes nothing and keeps
the old updated_at. -/
def applyUpd (n : StoredNote) (data : NoteUpdate) (now : Nat) : StoredNote where
  id := n.id
  title := if data.title.isSome then data.title else n.title
  body := if data.body.isSome then data.body else n.body
  user_id := if data.user_id.isSome then data.user_id else n.user_id
  created_at := n.created_at
  updated_at := if netChange n data then some now else n.updated_at

/-- The store after the row with the given primary key is replaced. -/
def updatedDB (db : DB) (note_id : Int) (n' : StoredNote) : DB :=
  { db with notes := db.notes.map (fun m => if m.id == note_id then n' else m) }

/-- PUT /notes/\x7bnote_id\x7d (app/main.py lines 258-275).  Path
parameter ge=1 and body validation run first; then the row is fetched,
each non-None parsed field is assigned, and the commit flushes.
SQLAlchemy emits an UPDATE statement exactly when some assigned
attribute has a net change against its saved value, and only then does
onupdate=func.now() refresh updated_at.
Assigning user_id to a value referencing no user makes the commit raise
IntegrityError (uncaught, as in create_note). -/
def update_note (db : DB) (note_id : Int) (raw : RawNoteUpdate) (now : Nat) :
    Except ApiError (StoredNote × DB) :=
  if note_id < 1 then .error .validationError
  else
    match parseNoteUpdate raw with
    | .error e => .error e
    | .ok data =>
      match db.notes.find? (fun n => n.id == note_id) with
      | none => .error .notFound
      | some n =>
        if fkOk db data.user_id then
          .ok (applyUpd n data now, updatedDB db note_id (applyUpd n data now))
        else .error .integrityError

/-- DELETE /notes/\x7bnote_id\x7d (app/main.py lines 278-285).  The path
parameter here is a plain int with no ge constraint, so any integer
reaches the handler; db.get looks the row up by primary key and
db.delete removes exactly that row. -/
def delete_note (db : DB) (note_id : Int) : Except ApiError DB :=
  match db.notes.find? (fun n => n.id == note_id) with
  | none => .error .notFound
  | some _ => .ok { db with notes := db.notes.eraseP (fun n => n.id == note_id) }

/-- Modelled from the spec: the repository exposes no delete-user
endpoint, but app/models.py declares cascade="all, delete-orphan" on
User.notes and ondelete="CASCADE" on Note.user_id, so deleting a User row
(through a session or SQL) removes the user and every note whose user_id
references it, as the spec states. -/
def delete_user (db : DB) (uid : Int) : Except ApiError DB :=
  match db.users.find? (fun u => u.id == uid) with
  | none => .error .notFound
  | some _ => .ok { db with
      users := db.users.eraseP (fun u => u.id == uid),
      notes := db.notes.filter (fun n => n.user_id != some uid) }

/-- Invariants the store maintains: primary keys are unique, and
sequence-generated ids are positive. -/
def wfDB (db : DB) : Prop :=
  (db.notes.map (fun n => n.id)).Nodup ∧
  (db.users.map (fun u => u.id)).Nodup ∧
  (∀ n ∈ db.notes, 1 ≤ n.id)

instance (db : DB) : Decidable (wfDB db) := by
  unfold wfDB
  infer_instance

/-- Turn an explicit null into an absent field, leaving everything else
alone.  Used to state that update payloads cannot tell the two apart. -/
def JsonField.dropNull {α : Type} : JsonField α → JsonField α
  | .null => .absent
  | f => f

/-- A raw update payload with every explicit null replaced by absence. -/
def dropNulls (r : RawNoteUpdate) : RawNoteUpdate :=
  { title := r.title.dropNull, body := r.body.dropNull, user_id := r.user_id.dropNull }

/-- Spec-side predicate, written from the spec text: the note field
contains the search string as a case-insensitive substring; a NULL field
contains nothing. -/
def containsCI (field : Option String) (q : String) : Prop :=
  match field with
  | none => False
  | some s => lowerChars q <:+: lowerChars s

instance (field : Option String) (q : String) : Decidable (containsCI field q) := by
  unfold containsCI
  cases field <;> infer_instance

/-- A character list free of the characters that are special in a SQL
LIKE pattern. -/
def plainChars (l : List Char) : Prop := ∀ c ∈ l, c ≠ '%' ∧ c ≠ '_' ∧ c ≠ '\\'

/-- A one-note, no-user store used for the concrete checks. -/
def exNote : StoredNote :=
  { id := 1, title := some "t", body := some "b", user_id := none,
    created_at := some 5, updated_at := some 5 }

/-- The store holding just exNote. -/
def exDB : DB := { users := [], notes := [exNote], note_seq := 2 }

/-- The empty store. -/
def emptyDB : DB := { users := [], notes := [], note_seq := 1 }

/-- A note whose title is "abc": it matches the LIKE pattern built from
the query "a_c" although "a_c" is not a substring of "abc". -/
def noteAbc : StoredNote :=
  { id := 1, title := some "abc", body := none, user_id := none,
    created_at := some 1, updated_at := none }

/-- The store holding just noteAbc. -/
def abcDB : DB := { users := [], notes := [noteAbc], note_seq := 2 }

/-- What GET /notes?q=a_c returns on abcDB. -/
def abcResult : ListResult := { items := [noteAbc], total := 1, limit := 20, offset := 0 }

/-- A store with 25 notes, all matching an unfiltered query, for the
pagination example of the spec. -/
def db25 : DB :=
  { users := [],
    notes := (List.range 25).map (fun i =>
      { id := Int.ofNat i + 1, title := none, body := none, user_id := none,
        created_at := some i, updated_at := none }),
    note_seq := 26 }

/-- Three notes with distinct timestamp shapes for the ordering check. -/
def dbSort : DB :=
  { users := [],
    notes := [
      { id := 1, title := none, body := none, user_id := none,
        created_at := some 5, updated_at := none },
      { id := 2, title := none, body := none, user_id := none,
        created_at := none, updated_at := none },
      { id := 3, title := none, body := none, user_id := none,
        created_at := some 7, updated_at := none }],
    note_seq := 4 }

/-- What GET /notes returns on dbSort: descending timestamps, NULL last. -/
def dbSortResult : ListResult :=
  { items := [
      { id := 3, title := none, body := none, user_id := none,
        created_at := some 7, updated_at := none },
      { id := 1, title := none, body := none, user_id := none,
        created_at := some 5, updated_at := none },
      { id := 2, title := none, body := none, user_id := none,
        created_at := none, updated_at := none }],
    total := 3, limit := 20, offset := 0 }

/-- A one-user, one-note store where the note is owned by the user. -/
def ownedDB : DB :=
  { users := [
      { id := 1, email := some "demo@local", hashed_password := some "demo",
        created_at := some 1 }],
    notes := [
      { id := 1, title := some "Hello", body := some "From seed", user_id := some 1,
        created_at := some 2, updated_at := some 2 }],
    note_seq := 2 }

/-! ## Validation inversion lemmas -/

theorem parseInTitle_ok_length (f : JsonField String) (t : String)
    (h : parseInTitle f = .ok t) : 1 ≤ t.length := by
  cases f with
  | absent => simp [parseInTitle] at h
  | null => simp [parseInTitle] at h
  | val v =>
    unfold parseInTitle at h
    dsimp only at h
    split at h
    next hc =>
      cases h
      exact hc.1
    next => simp at h

theorem parseNoteIn_title_length (raw : RawNoteIn) (note : NoteIn)
    (h : parseNoteIn raw = .ok note) : 1 ≤ note.title.length := by
  unfold parseNoteIn at h
  cases ht : parseInTitle raw.title with
  | error e => rw [ht] at h; simp [Bind.bind, Except.bind] at h
  | ok t =>
    rw [ht] at h
    cases hb : parseUpdBody raw.body with
    | error e => rw [hb] at h; simp [Bind.bind, Except.bind] at h
    | ok b =>
      rw [hb] at h
      simp only [Bind.bind, Except.bind, Except.ok.injEq] at h
      rw [← h]
      exact parseInTitle_ok_length raw.title t ht

/-- Inversion of a successful update: with a valid id, a parsed payload,
an existing row and a satisfied foreign key, update_note returns the
row produced by applyUpd and the store with that row replaced. -/
theorem update_note_ok (db : DB) (note_id : Int) (raw : RawNoteUpdate) (now : Nat)
    (data : NoteUpdate) (n : StoredNote)
    (hid : 1 ≤ note_id)
    (hparse : parseNoteUpdate raw = .ok data)
    (hfind : db.notes.find? (fun m => m.id == note_id) = some n)
    (hfk : fkOk db data.user_id = true) :
    update_note db note_id raw now =
      .ok (applyUpd n data now, updatedDB db note_id (applyUpd n data now)) := by
  unfold update_note
  rw [if_neg (by omega), hparse]
  dsimp only
  rw [hfind]
  dsimp only
  rw [hfk]
  simp

/-! ## C1: present-but-null versus absent fields in update payloads -/

/-- C1: the claim asks update_note to distinguish a field that is present
with value null from an absent field.  The code does not: the pydantic
NoteUpdate model parses both to None and update_note skips None fields,
so the two distinct payloads below validate and update identically. -/
theorem C1_null_indistinguishable_counterexample :
    RawNoteUpdate.mk (.null) (.absent) (.absent) ≠ RawNoteUpdate.mk (.absent) (.absent) (.absent) ∧
    parseNoteUpdate (RawNoteUpdate.mk (.null) (.absent) (.absent)) =
      parseNoteUpdate (RawNoteUpdate.mk (.absent) (.absent) (.absent)) ∧
    update_note exDB 1 (RawNoteUpdate.mk (.null) (.absent) (.absent)) 10 =
      update_note exDB 1 (RawNoteUpdate.mk (.absent) (.absent) (.absent)) 10 :=
  ⟨by decide, by decide, by decide⟩

/-- C1 amended: update_note treats a present-but-null field exactly like
an absent field; only fields supplied with non-null values overwrite the
stored values.  Replacing every explicit null in a payload by absence
changes neither validation nor the resulting update. -/
theorem C1_amended_null_treated_as_absent (r : RawNoteUpdate) :
    parseNoteUpdate (dropNulls r) = parseNoteUpdate r ∧
    ∀ db note_id now, update_note db note_id (dropNulls r) now = update_note db note_id r now := by
  have h : parseNoteUpdate (dropNulls r) = parseNoteUpdate r := by
    obtain ⟨t, b, u⟩ := r
    cases t <;> cases b <;> cases u <;> rfl
  refine ⟨h, fun db note_id now => ?_⟩
  unfold update_note
  rw [h]

/-! ## C5: partial update leaves unsupplied fields unchanged -/

/-- C5: updating a note with a payload that only supplies the body sets
the stored body to the stripped value and leaves the id, title, user_id
and created_at untouched; updated_at follows the flush rule, refreshed
exactly when the new body differs from the stored one. -/
theorem C5_body_only_update_frame (db : DB) (note_id : Int) (b : String) (now : Nat)
    (n : StoredNote)
    (hid : 1 ≤ note_id)
    (hb : (pyStrip b).length ≤ 2000)
    (hfind : db.notes.find? (fun m => m.id == note_id) = some n) :
    ∃ db', update_note db note_id (RawNoteUpdate.mk (.absent) (.val b) (.absent)) now =
      .ok ({ n with
        body := some (pyStrip b)
        updated_at := if some (pyStrip b) = n.body then n.updated_at else some now }, db') := by
  have hparse : parseNoteUpdate (RawNoteUpdate.mk (.absent) (.val b) (.absent)) =
      .ok (NoteUpdate.mk none (some (pyStrip b)) none) := by
    simp [parseNoteUpdate, parseUpdTitle, parseUpdBody, parseUserId, hb, Bind.bind, Except.bind]
  have hupd := update_note_ok db note_id (RawNoteUpdate.mk (.absent) (.val b) (.absent)) now
    (NoteUpdate.mk none (some (pyStrip b)) none) n hid hparse hfind (by simp [fkOk])
  have happ : applyUpd n (NoteUpdate.mk none (some (pyStrip b)) none) now =
      { n with
        body := some (pyStrip b)
        updated_at := if some (pyStrip b) = n.body then n.updated_at else some now } := by
    by_cases hc : some (pyStrip b) = n.body <;>
      simp [applyUpd, netChange, hc]
  refine ⟨updatedDB db note_id (applyUpd n (NoteUpdate.mk none (some (pyStrip b)) none) now), ?_⟩
  rw [hupd, happ]

/-- C5 witness: the concrete single-note store, where the new body
differs from the stored one. -/
theorem C5_body_only_update_frame_witness :
    (1 ≤ (1 : Int)) ∧ ((pyStrip "new").length ≤ 2000) ∧
    (exDB.notes.find? (fun m => m.id == 1) = some exNote) ∧
    (∃ db', update_note exDB 1 (RawNoteUpdate.mk (.absent) (.val "new") (.absent)) 7 =
      .ok ({ exNote with
        body := some (pyStrip "new")
        updated_at := if some (pyStrip "new") = exNote.body then exNote.updated_at
          else some 7 }, db')) :=
  ⟨by decide, by decide, by decide,
    C5_body_only_update_frame exDB 1 "new" 7 exNote (by decide) (by decide) (by decide)⟩

/-! ## C6: refreshing updated_at -/

/-- C6: the claim says every successful update refreshes updated_at.
Two successful updates at time 10 refute it: a payload supplying no
field, and a payload supplying the title with exactly the stored value.
Neither makes a net change, so SQLAlchemy emits no UPDATE and onupdate
never fires: both leave updated_at at its old value 5. -/
theorem C6_no_net_change_keeps_updated_at_counterexample :
    update_note exDB 1 (RawNoteUpdate.mk (.absent) (.absent) (.absent)) 10 =
      .ok (exNote, exDB) ∧
    update_note exDB 1 (RawNoteUpdate.mk (.val "t") (.absent) (.absent)) 10 =
      .ok (exNote, exDB) ∧
    exNote.updated_at = some 5 ∧ (5 : Nat) < 10 ∧ exNote.updated_at ≠ some 10 :=
  ⟨by decide, by decide, by decide, by decide, by decide⟩

/-- C6 amended: on a successful update, updated_at is refreshed to the
current time, strictly later than any prior value when the clock has
advanced, exactly when some supplied field differs from the stored value
(netChange); when no supplied field changes anything, including a payload
supplying no field at all, updated_at keeps its prior value. -/
theorem C6_amended_updated_at_net_change (db : DB) (note_id : Int) (raw : RawNoteUpdate)
    (now : Nat) (data : NoteUpdate) (n : StoredNote)
    (hid : 1 ≤ note_id)
    (hparse : parseNoteUpdate raw = .ok data)
    (hfind : db.notes.find? (fun m => m.id == note_id) = some n)
    (hfk : fkOk db data.user_id = true)
    (hclock : ∀ t, n.updated_at = some t → t < now) :
    ∃ n' db', update_note db note_id raw now = .ok (n', db') ∧
      (netChange n data = true →
        n'.updated_at = some now ∧
        ∀ t, n.updated_at = some t → ∃ t', n'.updated_at = some t' ∧ t < t') ∧
      (netChange n data = false → n'.updated_at = n.updated_at) := by
  have hupd := update_note_ok db note_id raw now data n hid hparse hfind hfk
  refine ⟨applyUpd n data now, updatedDB db note_id (applyUpd n data now), hupd, ?_, ?_⟩
  · intro hc
    have hat : (applyUpd n data now).updated_at = some now := by
      simp [applyUpd, hc]
    exact ⟨hat, fun t ht => ⟨now, hat, hclock t ht⟩⟩
  · intro hc
    simp [applyUpd, hc]

/-- C6 witness: supplying the title "x" (the stored title is "t", a net
change) at time 10 refreshes updated_at of the note last touched at 5. -/
theorem C6_amended_updated_at_net_change_witness :
    (1 ≤ (1 : Int)) ∧
    (parseNoteUpdate (RawNoteUpdate.mk (.val "x") (.absent) (.absent)) =
      .ok (NoteUpdate.mk (some "x") none none)) ∧
    (exDB.notes.find? (fun m => m.id == 1) = some exNote) ∧
    (fkOk exDB (NoteUpdate.mk (some "x") none none).user_id = true) ∧
    (netChange exNote (NoteUpdate.mk (some "x") none none) = true) ∧
    (∃ n' db', update_note exDB 1 (RawNoteUpdate.mk (.val "x") (.absent) (.absent)) 10 =
      .ok (n', db') ∧
      (netChange exNote (NoteUpdate.mk (some "x") none none) = true →
        n'.updated_at = some 10 ∧
        ∀ t, exNote.updated_at = some t → ∃ t', n'.updated_at = some t' ∧ t < t') ∧
      (netChange exNote (NoteUpdate.mk (some "x") none none) = false →
        n'.updated_at = exNote.updated_at)) :=
  ⟨by decide, by decide, by decide, by decide, by decide,
    C6_amended_updated_at_net_change exDB 1 (RawNoteUpdate.mk (.val "x") (.absent) (.absent))
      10 (NoteUpdate.mk (some "x") none none) exNote (by decide) (by decide) (by decide)
      (by decide) (fun t ht => by simp [exNote] at ht; omega)⟩

/-! ## C7: delete is permanent and its failure mode idempotent -/

/-- In a store with unique primary keys, removing the first row matching
a key leaves no row with that key. -/
theorem find?_eraseP_self_eq_none (l : List StoredNote) (i : Int)
    (hnd : (l.map (fun n => n.id)).Nodup) :
    (l.eraseP (fun n => n.id == i)).find? (fun n => n.id == i) = none := by
  induction l with
  | nil => rfl
  | cons a l ih =>
    rw [List.map_cons, List.nodup_cons] at hnd
    rw [List.eraseP_cons]
    by_cases ha : (a.id == i) = true
    · rw [ha]
      dsimp only [cond]
      rw [List.find?_eq_none]
      intro x hx hbeq
      have hxa : x.id = i := by simpa using hbeq
      have haa : a.id = i := by simpa using ha
      exact hnd.1 (by rw [haa, ← hxa]; exact List.mem_map_of_mem _ hx)
    · have ha' : (a.id == i) = false := by simpa using ha
      rw [ha']
      dsimp only [cond]
      rw [List.find?_cons_of_neg _ (by simp [ha'])]
      exact ih hnd.2

/-- C7: once delete_note succeeds for an id, the row is gone: get_note of
that id fails with NotFoundError and a second delete_note of the same id
also fails with NotFoundError instead of succeeding. -/
theorem C7_delete_permanent_and_idempotent_failure (db : DB) (note_id : Int) (n : StoredNote)
    (hwf : wfDB db)
    (hfind : db.notes.find? (fun m => m.id == note_id) = some n) :
    ∃ db', delete_note db note_id = .ok db' ∧
      get_note db' note_id = .error .notFound ∧
      delete_note db' note_id = .error .notFound := by
  have hid : 1 ≤ note_id := by
    have h1 := List.find?_some hfind
    have h2 := List.mem_of_find?_eq_some hfind
    have h3 := hwf.2.2 n h2
    have h4 : n.id = note_id := by simpa using h1
    omega
  have hnone := find?_eraseP_self_eq_none db.notes note_id hwf.1
  refine ⟨{ db with notes := db.notes.eraseP (fun m => m.id == note_id) }, ?_, ?_, ?_⟩
  · unfold delete_note
    rw [hfind]
  · unfold get_note
    rw [if_neg (by omega)]
    dsimp only
    rw [hnone]
  · unfold delete_note
    dsimp only
    rw [hnone]

/-- C7 witness: the concrete single-note store. -/
theorem C7_delete_permanent_and_idempotent_failure_witness :
    wfDB exDB ∧ (exDB.notes.find? (fun m => m.id == 1) = some exNote) ∧
    (∃ db', delete_note exDB 1 = .ok db' ∧
      get_note db' 1 = .error .notFound ∧
      delete_note db' 1 = .error .notFound) :=
  ⟨by decide, by decide,
    C7_delete_permanent_and_idempotent_failure exDB 1 exNote (by decide) (by decide)⟩

/-! ## C8: creating a note with a dangling user_id -/

/-- C8: the claim says a create_note whose user_id references no user
fails with a typed ReferentialIntegrityError surfaced as 409.  The code
has no handler for the database's IntegrityError, so the failure is the
unhandled kind and the client sees a 500, not a 409. -/
theorem C8_fk_violation_is_unhandled_counterexample :
    create_note emptyDB (RawNoteIn.mk (.val "hi") (.absent) (.val 1)) 0 =
      .error .integrityError ∧
    ApiError.integrityError.isStructured = false ∧
    ApiError.integrityError.status = 500 ∧
    ApiError.integrityError.status ≠ 409 :=
  ⟨by decide, by decide, by decide, by decide⟩

/-- C8 amended: a create_note whose user_id does not reference an
existing user fails with the database's IntegrityError, which no handler
in the application catches: the failure escapes unhandled and surfaces as
a 500 internal error rather than a typed 409 conflict. -/
theorem C8_amended_fk_violation_unhandled (db : DB) (raw : RawNoteIn) (now : Nat)
    (note : NoteIn) (uid : Int)
    (hparse : parseNoteIn raw = .ok note)
    (huid : note.user_id = some uid)
    (hmissing : ∀ u ∈ db.users, u.id ≠ uid) :
    create_note db raw now = .error .integrityError ∧
    ApiError.integrityError.isStructured = false ∧
    ApiError.integrityError.status = 500 := by
  refine ⟨?_, rfl, rfl⟩
  have htitle : note.title ≠ "" := by
    have h := parseNoteIn_title_length raw note hparse
    intro he
    rw [he] at h
    simp [String.length] at h
  have hfk : fkOk db note.user_id = false := by
    rw [huid]
    unfold fkOk
    dsimp only
    rw [List.find?_eq_none.mpr (fun u hu => by simpa using hmissing u hu)]
    rfl
  unfold create_note
  rw [hparse]
  simp only [Bind.bind, Except.bind]
  rw [if_neg htitle, if_neg (by rw [hfk]; exact Bool.false_ne_true)]

/-- C8 witness: the empty store has no user with id 1. -/
theorem C8_amended_fk_violation_unhandled_witness :
    (parseNoteIn (RawNoteIn.mk (.val "hi") (.absent) (.val 1)) =
      .ok (NoteIn.mk "hi" none (some 1))) ∧
    ((NoteIn.mk "hi" none (some 1)).user_id = some 1) ∧
    (∀ u ∈ emptyDB.users, u.id ≠ 1) ∧
    (create_note emptyDB (RawNoteIn.mk (.val "hi") (.absent) (.val 1)) 0 =
      .error .integrityError ∧
    ApiError.integrityError.isStructured = false ∧
    ApiError.integrityError.status = 500) :=
  ⟨by decide, by decide, by decide,
    C8_amended_fk_violation_unhandled emptyDB (RawNoteIn.mk (.val "hi") (.absent) (.val 1)) 0
      (NoteIn.mk "hi" none (some 1)) 1 (by decide) (by decide) (by decide)⟩

/-! ## C9: deleting a user cascades to its notes -/

/-- C9: deleting a user removes every note it owns: afterwards get_note
of such a note's id fails with NotFoundError, so no note ever references
a nonexistent user. -/
theorem C9_user_delete_cascades_to_notes (db : DB) (u : StoredUser) (n : StoredNote)
    (hwf : wfDB db) (hu : u ∈ db.users) (hn : n ∈ db.notes)
    (howner : n.user_id = some u.id) :
    ∃ db', delete_user db u.id = .ok db' ∧ get_note db' n.id = .error .notFound := by
  have hfind : (db.users.find? (fun x => x.id == u.id)).isSome := by
    rw [List.find?_isSome]
    exact ⟨u, hu, by simp⟩
  obtain ⟨x, hx⟩ := Option.isSome_iff_exists.mp hfind
  refine ⟨{ db with
      users := db.users.eraseP (fun x => x.id == u.id)
      notes := db.notes.filter (fun m => m.user_id != some u.id) }, ?_, ?_⟩
  · unfold delete_user
    rw [hx]
  · unfold get_note
    rw [if_neg (by have := hwf.2.2 n hn; omega)]
    dsimp only
    have hnone : (db.notes.filter (fun m => m.user_id != some u.id)).find?
        (fun m => m.id == n.id) = none := by
      rw [List.find?_eq_none]
      intro m hm hbeq
      rw [List.mem_filter] at hm
      have hid : m.id = n.id := by simpa using hbeq
      have hmn : m = n := List.inj_on_of_nodup_map hwf.1 hm.1 hn hid
      rw [hmn, howner] at hm
      simp at hm
    rw [hnone]

/-- C9 witness: one user owning one note. -/
theorem C9_user_delete_cascades_to_notes_witness :
    wfDB ownedDB ∧
    ((StoredUser.mk 1 (some "demo@local") (some "demo") (some 1)) ∈ ownedDB.users) ∧
    ((StoredNote.mk 1 (some "Hello") (some "From seed") (some 1) (some 2) (some 2)) ∈ ownedDB.notes) ∧
    (∃ db', delete_user ownedDB 1 = .ok db' ∧ get_note db' 1 = .error .notFound) :=
  ⟨by decide, by decide, by decide,
    C9_user_delete_cascades_to_notes ownedDB
      (StoredUser.mk 1 (some "demo@local") (some "demo") (some 1))
      (StoredNote.mk 1 (some "Hello") (some "From seed") (some 1) (some 2) (some 2))
      (by decide) (by decide) (by decide) (by decide)⟩

/-! ## C10: non-positive ids are not treated uniformly -/

/-- C10: for a non-positive note_id, get_note and update_note reject the
request as a 422 validation failure before touching the store (their path
parameter carries ge=1), while delete_note (whose path parameter has no
constraint) performs the lookup and fails with a 404 NotFoundError. -/
theorem C10_nonpositive_id_not_uniform (db : DB) (note_id : Int)
    (hwf : wfDB db) (hid : note_id ≤ 0) :
    get_note db note_id = .error .validationError ∧
    (∀ raw now, update_note db note_id raw now = .error .validationError) ∧
    delete_note db note_id = .error .notFound ∧
    ApiError.validationError.status = 422 ∧
    ApiError.notFound.status = 404 := by
  refine ⟨?_, ?_, ?_, rfl, rfl⟩
  · unfold get_note
    rw [if_pos (by omega)]
  · intro raw now
    unfold update_note
    rw [if_pos (by omega)]
  · unfold delete_note
    rw [List.find?_eq_none.mpr (fun x hx => by
      have := hwf.2.2 x hx
      simp only [beq_iff_eq]
      omega)]

/-- C10 witness: id 0 against the single-note store. -/
theorem C10_nonpositive_id_not_uniform_witness :
    wfDB exDB ∧ ((0 : Int) ≤ 0) ∧
    (get_note exDB 0 = .error .validationError ∧
    (∀ raw now, update_note exDB 0 raw now = .error .validationError) ∧
    delete_note exDB 0 = .error .notFound ∧
    ApiError.validationError.status = 422 ∧
    ApiError.notFound.status = 404) :=
  ⟨by decide, by decide, C10_nonpositive_id_not_uniform exDB 0 (by decide) (by decide)⟩

/-! ## C2: total counts the matching rows before pagination -/

/-- C2: for every valid list_notes request, total is the number of rows
matching the query and user_id filters before the limit/offset window,
and the number of returned items is what windowing that count gives:
min limit (total - offset).  In particular 25 matching rows with
limit 10, offset 20 yield 5 items and total 25. -/
theorem C2_total_before_pagination (db : DB) (q : Option String) (user_id : Option Int)
    (limit offset : Int)
    (hu : badUserParam user_id = false)
    (hlo : 1 ≤ limit) (hhi : limit ≤ 100) (hoff : 0 ≤ offset) :
    ∃ r, list_notes db q user_id limit offset = .ok r ∧
      r.total = (db.notes.filter (matchFilter q user_id)).length ∧
      r.items.length =
        min limit.toNat ((db.notes.filter (matchFilter q user_id)).length - offset.toNat) := by
  unfold list_notes
  rw [hu]
  rw [if_neg (by simp), if_neg (by omega), if_neg (by omega)]
  refine ⟨_, rfl, rfl, ?_⟩
  dsimp only
  rw [List.length_take, List.length_drop, (List.perm_insertionSort noteOrd _).length_eq]

/-- C2 witness: the spec's pagination example, 25 matching notes with
limit 10 and offset 20. -/
theorem C2_total_before_pagination_witness :
    badUserParam none = false ∧ (1 ≤ (10 : Int)) ∧ ((10 : Int) ≤ 100) ∧ ((0 : Int) ≤ 20) ∧
    (∃ r, list_notes db25 none none 10 20 = .ok r ∧
      r.total = (db25.notes.filter (matchFilter none none)).length ∧
      r.items.length =
        min (10 : Int).toNat ((db25.notes.filter (matchFilter none none)).length - (20 : Int).toNat)) ∧
    (db25.notes.filter (matchFilter none none)).length = 25 ∧
    min (10 : Int).toNat ((db25.notes.filter (matchFilter none none)).length - (20 : Int).toNat) = 5 :=
  ⟨by decide, by decide, by decide, by decide,
    C2_total_before_pagination db25 none none 10 20 (by decide) (by decide) (by decide) (by decide),
    by decide, by decide⟩

/-! ## C4: result ordering -/

/-- C4: the items any successful list_notes call returns are pairwise
ordered by created_at descending, and a row with a null created_at never
precedes a row with a non-null one (nulls sort last). -/
theorem C4_items_ordered_desc_nulls_last (db : DB) (q : Option String) (user_id : Option Int)
    (limit offset : Int) (r : ListResult)
    (hok : list_notes db q user_id limit offset = .ok r) :
    r.items.Pairwise (fun a b =>
      match a.created_at, b.created_at with
      | some x, some y => y ≤ x
      | none, some _ => False
      | _, _ => True) := by
  unfold list_notes at hok
  split at hok
  · simp at hok
  split at hok
  · simp at hok
  split at hok
  · simp at hok
  rw [Except.ok.injEq] at hok
  have hitems : r.items =
      ((List.insertionSort noteOrd (db.notes.filter (matchFilter q user_id))).drop
        offset.toNat).take limit.toNat := by
    rw [← hok]
  have hsorted : List.Pairwise noteOrd
      (List.insertionSort noteOrd (db.notes.filter (matchFilter q user_id))) :=
    List.sorted_insertionSort noteOrd _
  have hsub := (List.take_sublist limit.toNat _).trans
    (List.drop_sublist offset.toNat (List.insertionSort noteOrd (db.notes.filter (matchFilter q user_id))))
  rw [hitems]
  refine (hsorted.sublist hsub).imp ?_
  intro a b h
  unfold noteOrd noteLe at h
  cases ha : a.created_at <;> cases hb : b.created_at <;> rw [ha, hb] at h <;> simp_all

/-- C4 witness: three notes with timestamps 5, NULL and 7 come back in
the order 7, 5, NULL. -/
theorem C4_items_ordered_desc_nulls_last_witness :
    list_notes dbSort none none 20 0 = .ok dbSortResult ∧
    dbSortResult.items.Pairwise (fun a b =>
      match a.created_at, b.created_at with
      | some x, some y => y ≤ x
      | none, some _ => False
      | _, _ => True) :=
  ⟨by decide, C4_items_ordered_desc_nulls_last dbSort none none 20 0 dbSortResult (by decide)⟩

/-! ## C3: search semantics

The LIKE pattern list_notes builds is percent, stripped query, percent.
When the stripped query contains no LIKE special character, matching that
pattern is exactly case-insensitive substring containment; the lemmas
below establish this, and the counterexample shows it fails once the
query contains a wildcard. -/

theorem likeMatch_pct_nil (ps : List Char) : likeMatch ('%' :: ps) [] = likeMatch ps [] := by
  conv_lhs => rw [likeMatch.eq_def]
  dsimp only
  rw [if_neg (by decide), if_pos rfl]

theorem likeMatch_pct_cons (ps : List Char) (c : Char) (s : List Char) :
    likeMatch ('%' :: ps) (c :: s) = (likeMatch ps (c :: s) || likeMatch ('%' :: ps) s) := by
  conv_lhs => rw [likeMatch.eq_def]
  dsimp only
  rw [if_neg (by decide), if_pos rfl]

theorem likeMatch_plain_nil (a : Char) (ps : List Char) (h1 : a ≠ '\\') (h2 : a ≠ '%') :
    likeMatch (a :: ps) [] = false := by
  conv_lhs => rw [likeMatch.eq_def]
  dsimp only
  rw [if_neg h1, if_neg h2]

theorem likeMatch_plain_cons (a : Char) (ps : List Char) (c : Char) (s : List Char)
    (h1 : a ≠ '\\') (h2 : a ≠ '%') :
    likeMatch (a :: ps) (c :: s) = ((a = '_' || a == c) && likeMatch ps s) := by
  conv_lhs => rw [likeMatch.eq_def]
  dsimp only
  rw [if_neg h1, if_neg h2]

/-- A leading percent matches any split: the rest of the pattern must
match some suffix of the text. -/
theorem likeMatch_pct_iff (ps : List Char) (s : List Char) :
    likeMatch ('%' :: ps) s = true ↔ ∃ t, t <:+ s ∧ likeMatch ps t = true := by
  induction s with
  | nil =>
    rw [likeMatch_pct_nil]
    constructor
    · intro h
      exact ⟨[], List.nil_suffix, h⟩
    · rintro ⟨t, ht, h⟩
      rw [List.suffix_nil.mp ht] at h
      exact h
  | cons c s ih =>
    rw [likeMatch_pct_cons, Bool.or_eq_true]
    constructor
    · rintro (h | h)
      · exact ⟨c :: s, List.suffix_refl _, h⟩
      · obtain ⟨t, ht, hm⟩ := ih.mp h
        exact ⟨t, ht.trans (List.suffix_cons c s), hm⟩
    · rintro ⟨t, ht, hm⟩
      rcases List.suffix_cons_iff.mp ht with rfl | ht'
      · exact Or.inl hm
      · exact Or.inr (ih.mpr ⟨t, ht', hm⟩)

/-- A wildcard-free pattern followed by a percent matches exactly the
texts having the pattern as a prefix. -/
theorem likeMatch_plain_pct_iff (p : List Char) (hp : plainChars p) :
    ∀ s, likeMatch (p ++ ['%']) s = true ↔ p <+: s := by
  induction p with
  | nil =>
    intro s
    rw [List.nil_append, likeMatch_pct_iff]
    constructor
    · intro _
      exact List.nil_prefix
    · intro _
      exact ⟨[], List.nil_suffix, by simp [likeMatch]⟩
  | cons a p ih =>
    intro s
    have ha := hp a (List.mem_cons_self a p)
    have hp' : plainChars p := fun c hc => hp c (List.mem_cons_of_mem a hc)
    cases s with
    | nil =>
      rw [List.cons_append, likeMatch_plain_nil a _ ha.2.2 ha.1]
      simp
    | cons c s' =>
      rw [List.cons_append, likeMatch_plain_cons a _ c s' ha.2.2 ha.1,
        List.cons_prefix_cons, Bool.and_eq_true, ih hp' s']
      have hu : ((a = '_' : Bool) || a == c) = (a == c) := by
        simp [ha.2.1]
      rw [hu, beq_iff_eq]

/-- The pattern percent-p-percent, for wildcard-free p, matches exactly
the texts containing p. -/
theorem likeMatch_infix_iff (p : List Char) (s : List Char) (hp : plainChars p) :
    likeMatch ('%' :: (p ++ ['%'])) s = true ↔ p <:+: s := by
  rw [likeMatch_pct_iff, List.infix_iff_prefix_suffix]
  constructor
  · rintro ⟨t, ht, hm⟩
    exact ⟨t, (likeMatch_plain_pct_iff p hp t).mp hm, ht⟩
  · rintro ⟨t, hpre, hsuf⟩
    exact ⟨t, hsuf, (likeMatch_plain_pct_iff p hp t).mpr hpre⟩

/-- Lowercasing never produces a LIKE special character from an ordinary
one. -/
theorem toLower_not_special (c : Char) (hc : ¬ (c = '%' ∨ c = '_' ∨ c = '\\')) :
    ¬ (c.toLower = '%' ∨ c.toLower = '_' ∨ c.toLower = '\\') := by
  have hval : ∀ (n : Nat) (h1 : 97 ≤ n) (h2 : n ≤ 122), (Char.ofNat n).toNat = n := by
    intro n h1 h2
    have hv : n.isValidChar := Or.inl (by omega)
    simp only [Char.ofNat, hv, dite_true, Char.ofNatAux, Char.toNat]
    rfl
  by_cases h : c.toNat ≥ 65 ∧ c.toNat ≤ 90
  · have hl : c.toLower = Char.ofNat (c.toNat + 32) := by
      simp [Char.toLower, h]
    have ht : (c.toLower).toNat = c.toNat + 32 := by
      rw [hl]
      exact hval _ (by omega) (by omega)
    rintro (he | he | he) <;> rw [he] at ht <;>
      simp only [show ('%').toNat = 37 from rfl, show ('_').toNat = 95 from rfl,
        show ('\\').toNat = 92 from rfl] at ht <;> omega
  · have hl : c.toLower = c := by
      simp [Char.toLower, h]
    rw [hl]
    exact hc

theorem plainChars_lowerChars (s : String)
    (h : ∀ c ∈ s.data, c ≠ '%' ∧ c ≠ '_' ∧ c ≠ '\\') :
    plainChars (lowerChars s) := by
  intro c hc
  rw [lowerChars, List.mem_map] at hc
  obtain ⟨d, hd, rfl⟩ := hc
  have hd' := h d hd
  have := toLower_not_special d (by tauto)
  tauto

/-- Stripping only removes characters. -/
theorem mem_pyStrip (s : String) (c : Char) (h : c ∈ (pyStrip s).data) : c ∈ s.data := by
  unfold pyStrip at h
  dsimp only at h
  rw [List.mem_reverse] at h
  have h2 := (List.dropWhile_sublist _).subset h
  rw [List.mem_reverse] at h2
  exact (List.dropWhile_sublist _).subset h2

/-- The lowercased likePattern in list form. -/
theorem lowerChars_likePattern (q : String) :
    lowerChars (likePattern q) = '%' :: (lowerChars (pyStrip q) ++ ['%']) := by
  unfold likePattern lowerChars
  rw [String.data_append, String.data_append]
  simp [show Char.toLower '%' = '%' from by decide]

/-- For a wildcard-free stripped query, ILIKE against the built pattern
is case-insensitive containment of the stripped query. -/
theorem ilike_likePattern_iff (q s : String) (hp : plainChars (lowerChars (pyStrip q))) :
    ilike s (likePattern q) = true ↔ lowerChars (pyStrip q) <:+: lowerChars s := by
  unfold ilike
  rw [lowerChars_likePattern]
  exact likeMatch_infix_iff _ _ hp

/-- The search predicate of list_notes, characterised for wildcard-free
queries: a row matches exactly when its title or its body contains the
stripped query case-insensitively, NULL columns never matching. -/
theorem noteMatchesQ_iff (q : String) (n : StoredNote)
    (hp : plainChars (lowerChars (pyStrip q))) :
    noteMatchesQ q n = true ↔
      (containsCI n.title (pyStrip q) ∨ containsCI n.body (pyStrip q)) := by
  unfold noteMatchesQ optIlike containsCI
  rw [Bool.or_eq_true]
  cases ht : n.title <;> cases hb : n.body <;>
    simp [ilike_likePattern_iff _ _ hp]

theorem matchFilter_q_iff (q : String) (n : StoredNote) (hq : q ≠ "")
    (hp : plainChars (lowerChars (pyStrip q))) :
    matchFilter (some q) none n = true ↔
      (containsCI n.title (pyStrip q) ∨ containsCI n.body (pyStrip q)) := by
  unfold matchFilter
  dsimp only
  rw [if_neg hq]
  simp [noteMatchesQ_iff q n hp]

/-- C3: the claim promises that list_notes(q) returns exactly the notes
containing q case-insensitively, for every non-empty q.  It fails when q
contains a LIKE wildcard: the query a_c matches the stored title abc
through the underscore wildcard although a_c is not a substring of
abc. -/
theorem C3_wildcard_counterexample :
    list_notes abcDB (some "a_c") none 20 0 = .ok abcResult ∧
    noteAbc ∈ abcResult.items ∧
    ¬ containsCI noteAbc.title "a_c" ∧
    ¬ containsCI noteAbc.body "a_c" := by
  refine ⟨?_, by decide, by decide, by decide⟩
  have hm : matchFilter (some "a_c") none noteAbc = true := by
    simp [matchFilter, noteMatchesQ, optIlike, noteAbc, ilike, likePattern, pyStrip,
      lowerChars, likeMatch]
  unfold list_notes
  rw [if_neg (by decide), if_neg (by decide), if_neg (by decide)]
  simp [abcDB, abcResult, List.filter, hm, List.insertionSort, List.orderedInsert]

/-- C3 amended: for every non-empty query free of the LIKE special
characters percent, underscore and backslash, a successful list_notes
call with that query alone (offset 0, matching rows within the page
limit) returns exactly the stored notes whose title or body contains the
stripped query as a case-insensitive substring; a NULL title or body
never matches. -/
theorem C3_amended_search_contains (db : DB) (q : String) (limit : Int)
    (hq : q ≠ "")
    (hplain : ∀ c ∈ q.data, c ≠ '%' ∧ c ≠ '_' ∧ c ≠ '\\')
    (hlo : 1 ≤ limit) (hhi : limit ≤ 100)
    (hfit : (db.notes.filter (matchFilter (some q) none)).length ≤ limit.toNat) :
    ∃ r, list_notes db (some q) none limit 0 = .ok r ∧
      ∀ n, n ∈ r.items ↔ n ∈ db.notes ∧
        (containsCI n.title (pyStrip q) ∨ containsCI n.body (pyStrip q)) := by
  have hp : plainChars (lowerChars (pyStrip q)) :=
    plainChars_lowerChars _ (fun c hc => hplain c (mem_pyStrip q c hc))
  unfold list_notes
  rw [if_neg (by decide), if_neg (by omega), if_neg (by decide)]
  refine ⟨_, rfl, ?_⟩
  intro n
  dsimp only
  rw [show (0 : Int).toNat = 0 from rfl, List.drop_zero,
    List.take_of_length_le (by rw [(List.perm_insertionSort noteOrd _).length_eq]; exact hfit),
    (List.perm_insertionSort noteOrd _).mem_iff, List.mem_filter]
  constructor
  · rintro ⟨h1, h2⟩
    exact ⟨h1, (matchFilter_q_iff q n hq hp).mp h2⟩
  · rintro ⟨h1, h2⟩
    exact ⟨h1, (matchFilter_q_iff q n hq hp).mpr h2⟩

/-- C3 witness: searching the single-note store for its title text. -/
theorem C3_amended_search_contains_witness :
    ("t" ≠ "") ∧ (∀ c ∈ "t".data, c ≠ '%' ∧ c ≠ '_' ∧ c ≠ '\\') ∧
    (1 ≤ (20 : Int)) ∧ ((20 : Int) ≤ 100) ∧
    ((exDB.notes.filter (matchFilter (some "t") none)).length ≤ (20 : Int).toNat) ∧
    (∃ r, list_notes exDB (some "t") none 20 0 = .ok r ∧
      ∀ n, n ∈ r.items ↔ n ∈ exDB.notes ∧
        (containsCI n.title (pyStrip "t") ∨ containsCI n.body (pyStrip "t"))) :=
  ⟨by decide, by decide, by decide, by decide,
    by simp [exDB, exNote, List.filter, matchFilter, noteMatchesQ, optIlike, ilike,
      likePattern, pyStrip, lowerChars, likeMatch],
    C3_amended_search_contains exDB "t" 20 (by decide) (by decide) (by decide) (by decide)
      (by simp [exDB, exNote, List.filter, matchFilter, noteMatchesQ, optIlike, ilike,
        likePattern, pyStrip, lowerChars, likeMatch])⟩

end NotesApp
